import Mathlib

/-!
Shallow embedding of the student-application submission handler
(`student-submit-application`): the three actions `save_details`,
`generate_upload_urls` and `finalize_submission` acting on the relational
state (`students`, `student_applications`, `application_sessions`,
`application_documents`).

SQL queries are modelled on lists of rows: a `SELECT ... WHERE c` that the
JavaScript consumes through `recordset[0]` becomes `(rows.filter c).head?`;
an `UPDATE ... WHERE c` becomes a `List.map` that rewrites every row
satisfying `c`; an `INSERT` appends a row.  Timestamps are `Nat`
(milliseconds); the blob store is an oracle `ex : String → Bool` standing
for `checkBlobExists`; the crypto-random session id is an explicit input
`newSid`.  JSON body values that the code inspects with `typeof` are
modelled by `JVal` (numbers as `Int`).
-/

/-- Application status column: the closed set of values the workflow writes. -/
inductive Status where
  | IN_PROGRESS
  | SUBMITTED
  | UNDER_REVIEW
  | APPROVED
  | FINAL_APPROVED
  | REJECTED
deriving DecidableEq, Repr

/-- A JSON value as the handler's validation sees it (`typeof` checks). -/
inductive JVal where
  | jnum (n : Int)
  | jstr (s : String)
  | jnull
deriving DecidableEq, Repr

/-- JavaScript truthiness of a `JVal` (`!x` in the source). -/
def JVal.truthy : JVal → Bool
  | .jnum n => n != 0
  | .jstr s => s != ""
  | .jnull => false

def JVal.isStr : JVal → Bool
  | .jstr _ => true
  | _ => false

def JVal.isNum : JVal → Bool
  | .jnum _ => true
  | _ => false

/-- String content of a `JVal`; only used after validation ensured `isStr`. -/
def JVal.asStr : JVal → String
  | .jstr s => s
  | _ => ""

/-- Numeric content of a `JVal`; only used after validation ensured `isNum`. -/
def JVal.asInt : JVal → Int
  | .jnum n => n
  | _ => 0

/-- Row of the `students` table (the columns this handler touches). -/
structure StudentRow where
  student_id : Nat
  reapply_count : Nat
deriving DecidableEq, Repr

/-- Row of the `student_applications` table. -/
structure AppRow where
  application_id : Nat
  student_id : Nat
  blood_group : String
  address : String
  department : String
  year_of_study : Int
  semester : Int
  college_id : Int
  college_code : String
  status : Status
  submitted_at : Option Nat
  reviewed_at : Option Nat
  rejected_reason : Option String
deriving DecidableEq, Repr

/-- Row of the `application_sessions` table. -/
structure SessionRow where
  session_id : String
  student_id : Nat
  application_id : Nat
  expires_at : Nat
deriving DecidableEq, Repr

/-- Row of the `application_documents` table. -/
structure DocRow where
  application_id : Nat
  document_type : String
  document_url : String
  uploaded_at : Option Nat
deriving DecidableEq, Repr

/-- The durable database state shared by all actions.  `nextAppId` models
the identity column that `OUTPUT INSERTED.application_id` reads back. -/
structure DB where
  students : List StudentRow
  apps : List AppRow
  sessions : List SessionRow
  docs : List DocRow
  nextAppId : Nat
deriving DecidableEq, Repr

/-- Response body, keeping the source's JSON payloads. -/
inductive RBody where
  | err (msg : String)
  | saved (message : String) (application_id : Nat)
  | uploadUrls (session_id : String) (upload_urls : List (String × String))
      (expires_at : Nat)
  | finalized (message : String)
deriving DecidableEq, Repr

/-- HTTP response of one action. -/
structure Resp where
  statusCode : Nat
  body : RBody
deriving DecidableEq, Repr

def SESSION_EXPIRY_MINUTES : Nat := 25

/-- Body of a `save_details` request (fields destructured by the handler). -/
structure SaveBody where
  blood_group : JVal
  address : JVal
  department : JVal
  year_of_study : JVal
  semester : JVal
  college_id : JVal
  college_code : JVal
deriving DecidableEq, Repr

/-- JavaScript `String.prototype.trim()`: strip leading and trailing
whitespace.  Implemented on the character list so it is kernel-reducible. -/
def jsTrim (s : String) : String :=
  String.mk (((s.data.dropWhile Char.isWhitespace).reverse.dropWhile
    Char.isWhitespace).reverse)

/-- The field-validation chain of the `save_details` branch, in source order;
`some r` is the 400 response returned at the first failing check. -/
def validateSave (b : SaveBody) : Option Resp :=
  if ¬ (b.blood_group.truthy ∧ b.blood_group.isStr ∧ jsTrim b.blood_group.asStr ≠ "") then
    some ⟨400, .err "Blood group is required"⟩
  else if ¬ (b.address.truthy ∧ b.address.isStr ∧ jsTrim b.address.asStr ≠ "") then
    some ⟨400, .err "Address is required"⟩
  else if ¬ (b.department.truthy ∧ b.department.isStr ∧ jsTrim b.department.asStr ≠ "") then
    some ⟨400, .err "Department is required"⟩
  else if ¬ (b.year_of_study.truthy ∧ b.year_of_study.isNum ∧
      1 ≤ b.year_of_study.asInt ∧ b.year_of_study.asInt ≤ 4) then
    some ⟨400, .err "Valid year of study (1-4) is required"⟩
  else if ¬ (b.semester.truthy ∧ b.semester.isNum ∧
      1 ≤ b.semester.asInt ∧ b.semester.asInt ≤ 8) then
    some ⟨400, .err "Valid semester (1-8) is required"⟩
  else if ¬ (b.college_id.truthy ∧ b.college_code.truthy) then
    some ⟨400, .err "College information is required"⟩
  else
    none

/-- `SELECT application_id, status FROM student_applications WHERE student_id = @student_id`,
consumed through `recordset[0]`. -/
def appForStudent (db : DB) (sid : Nat) : Option AppRow :=
  (db.apps.filter (fun a => a.student_id == sid)).head?

/-- `SELECT reapply_count FROM students WHERE student_id = @student_id`,
with the source's `recordset[0]?.reapply_count || 0` default. -/
def lookupReapply (studs : List StudentRow) (sid : Nat) : Nat :=
  (((studs.filter (fun s => s.student_id == sid)).head?).map
    (fun s => s.reapply_count)).getD 0

/-- `UPDATE students SET reapply_count = reapply_count + 1 WHERE student_id = @student_id`. -/
def incReapply (studs : List StudentRow) (sid : Nat) : List StudentRow :=
  studs.map (fun s =>
    if s.student_id == sid then { s with reapply_count := s.reapply_count + 1 } else s)

/-- The reapply `UPDATE` of the REJECTED branch: overwrite the form fields,
reset status to `IN_PROGRESS`, clear `submitted_at`/`reviewed_at`/`rejected_reason`. -/
def resetApp (b : SaveBody) (r : AppRow) : AppRow :=
  { r with
    blood_group := jsTrim b.blood_group.asStr
    address := jsTrim b.address.asStr
    department := jsTrim b.department.asStr
    year_of_study := b.year_of_study.asInt
    semester := b.semester.asInt
    college_id := b.college_id.asInt
    college_code := b.college_code.asStr
    status := .IN_PROGRESS
    submitted_at := none
    reviewed_at := none
    rejected_reason := none }

/-- The in-progress `UPDATE` of the `save_details` branch: overwrite the form
fields only (status and timestamps untouched). -/
def overwriteApp (b : SaveBody) (r : AppRow) : AppRow :=
  { r with
    blood_group := jsTrim b.blood_group.asStr
    address := jsTrim b.address.asStr
    department := jsTrim b.department.asStr
    year_of_study := b.year_of_study.asInt
    semester := b.semester.asInt
    college_id := b.college_id.asInt
    college_code := b.college_code.asStr }

/-- The statuses of the source's `['SUBMITTED', 'UNDER_REVIEW', 'APPROVED',
'FINAL_APPROVED'].includes(status)` block check. -/
def blockedStatus (s : Status) : Bool :=
  s == .SUBMITTED || s == .UNDER_REVIEW || s == .APPROVED || s == .FINAL_APPROVED

/-- The row written by the `INSERT INTO student_applications` of the
`save_details` branch (`status 'IN_PROGRESS'`, `submitted_at NULL`; the
columns absent from the insert list default to NULL). -/
def freshApp (aid sid : Nat) (b : SaveBody) : AppRow :=
  { application_id := aid
    student_id := sid
    blood_group := jsTrim b.blood_group.asStr
    address := jsTrim b.address.asStr
    department := jsTrim b.department.asStr
    year_of_study := b.year_of_study.asInt
    semester := b.semester.asInt
    college_id := b.college_id.asInt
    college_code := b.college_code.asStr
    status := .IN_PROGRESS
    submitted_at := none
    reviewed_at := none
    rejected_reason := none }

/-- The `save_details` action of the handler. -/
def saveDetails (db : DB) (sid : Nat) (b : SaveBody) : DB × Resp :=
  match validateSave b with
  | some r => (db, r)
  | none =>
    match appForStudent db sid with
    | some a =>
      if blockedStatus a.status then
        (db, ⟨409, .err "You already have an active application. Cannot submit a new one."⟩)
      else if a.status == .REJECTED then
        if lookupReapply db.students sid > 0 then
          (db, ⟨403, .err "You have exceeded the reapply limit. Cannot submit application."⟩)
        else
          ({ db with
              apps := db.apps.map (fun r =>
                if r.application_id == a.application_id then resetApp b r else r)
              students := incReapply db.students sid },
           ⟨200, .saved "Application details updated successfully" a.application_id⟩)
      else
        ({ db with
            apps := db.apps.map (fun r =>
              if r.application_id == a.application_id then overwriteApp b r else r) },
         ⟨200, .saved "Application details updated successfully" a.application_id⟩)
    | none =>
      let aid := db.nextAppId
      ({ db with
          apps := db.apps ++ [freshApp aid sid b]
          nextAppId := aid + 1 },
       ⟨201, .saved "Application details saved successfully" aid⟩)

/-- Deterministic blob path `${college_code}/${usn}/${slug}`. -/
def blobPath (college_code usn slug : String) : String :=
  college_code ++ "/" ++ usn ++ "/" ++ slug

/-- The `generate_upload_urls` action.  `newSid` is the value of
`crypto.randomBytes(32).toString('hex')`; `now` is `Date.now()` in ms.
The SAS token query string is produced by the external Upload-URL Issuer,
so the response carries the deterministic blob paths the URLs are scoped to. -/
def generateUploadUrls (db : DB) (sid : Nat) (usn : String) (newSid : String)
    (now : Nat) : DB × Resp :=
  match appForStudent db sid with
  | none => (db, ⟨404, .err "No application found. Please save details first."⟩)
  | some a =>
    if a.status != .IN_PROGRESS then
      (db, ⟨400, .err "Application must be in IN_PROGRESS status to upload documents."⟩)
    else
      let expires := now + SESSION_EXPIRY_MINUTES * 60 * 1000
      ({ db with sessions := db.sessions ++
          [{ session_id := newSid, student_id := sid,
             application_id := a.application_id, expires_at := expires }] },
       ⟨200, .uploadUrls newSid
          [("aadhaar", blobPath a.college_code usn "aadhaar"),
           ("college_id_card", blobPath a.college_code usn "college_id_card"),
           ("marks_card_10th", blobPath a.college_code usn "marks_card_10th")]
          expires⟩)

/-- `SELECT application_id, expires_at FROM application_sessions WHERE
session_id = @session_id AND student_id = @student_id`, via `recordset[0]`. -/
def sessionLookup (db : DB) (session_id : String) (sid : Nat) : Option SessionRow :=
  (db.sessions.filter (fun s =>
    s.session_id == session_id && s.student_id == sid)).head?

/-- `SELECT status, college_code FROM student_applications WHERE
application_id = @application_id`, via `recordset[0]`. -/
def appById (db : DB) (aid : Nat) : Option AppRow :=
  (db.apps.filter (fun a => a.application_id == aid)).head?

/-- The `missing` array built in the finalize branch when a blob is absent. -/
def missingDocs (aE cE mE : Bool) : List String :=
  (if aE then [] else ["Aadhaar Card"]) ++
  (if cE then [] else ["College ID Card"]) ++
  (if mE then [] else ["10th Marks Card"])

/-- Canonical stored document URL
`https://{account}.blob.core.windows.net/student-documents/{cc}/{usn}/{docType}`. -/
def documentUrl (acct college_code usn docType : String) : String :=
  "https://" ++ acct ++ ".blob.core.windows.net/student-documents/" ++
    college_code ++ "/" ++ usn ++ "/" ++ docType

/-- The `IF EXISTS ... UPDATE ... ELSE ... INSERT` upsert on
`(application_id, document_type)`.  The source's `INSERT` does not supply
`uploaded_at`, so an inserted row carries `none`; the `UPDATE` sets it. -/
def upsertDoc (docs : List DocRow) (aid : Nat) (ty url : String) (now : Nat) :
    List DocRow :=
  if docs.any (fun d => d.application_id == aid && d.document_type == ty) then
    docs.map (fun d =>
      if d.application_id == aid && d.document_type == ty then
        { d with document_url := url, uploaded_at := some now }
      else d)
  else
    docs ++ [{ application_id := aid, document_type := ty,
               document_url := url, uploaded_at := none }]

/-- The `UPDATE student_applications SET status = 'SUBMITTED', submitted_at =
SYSUTCDATETIME()` applied to one row. -/
def submitApp (now : Nat) (r : AppRow) : AppRow :=
  { r with status := .SUBMITTED, submitted_at := some now }

/-- The `finalize_submission` action.  `ex` is the blob-existence oracle
(`checkBlobExists`), `acct` the storage-account name, `now` the clock. -/
def finalizeSubmission (db : DB) (sid : Nat) (usn : String) (session_id : String)
    (now : Nat) (acct : String) (ex : String → Bool) : DB × Resp :=
  if session_id == "" then
    (db, ⟨400, .err "Session ID is required"⟩)
  else
    match sessionLookup db session_id sid with
    | none => (db, ⟨404, .err "Invalid or expired session"⟩)
    | some s =>
      if now > s.expires_at then
        (db, ⟨400, .err "Session has expired. Please restart the upload process."⟩)
      else
        match appById db s.application_id with
        | none => (db, ⟨404, .err "Application not found"⟩)
        | some a =>
          if a.status != .IN_PROGRESS then
            (db, ⟨400, .err "Application is not in IN_PROGRESS status"⟩)
          else
            let aE := ex (blobPath a.college_code usn "aadhaar")
            let cE := ex (blobPath a.college_code usn "college_id_card")
            let mE := ex (blobPath a.college_code usn "marks_card_10th")
            if ¬ (aE ∧ cE ∧ mE) then
              (db, ⟨400, .err ("Missing documents: " ++
                String.intercalate ", " (missingDocs aE cE mE) ++
                ". Please upload all required documents.")⟩)
            else
              let docs₁ := upsertDoc db.docs s.application_id "AADHAR"
                (documentUrl acct a.college_code usn "aadhaar") now
              let docs₂ := upsertDoc docs₁ s.application_id "COLLEGE_ID"
                (documentUrl acct a.college_code usn "college_id_card") now
              let docs₃ := upsertDoc docs₂ s.application_id "SSLC"
                (documentUrl acct a.college_code usn "marks_card_10th") now
              ({ db with
                  docs := docs₃
                  apps := db.apps.map (fun r =>
                    if r.application_id == s.application_id then submitApp now r
                    else r) },
               ⟨200, .finalized
                 "Application submitted successfully! Your application is now under review."⟩)

/-- One caller-invoked action together with all of its request inputs and
environment inputs (clock, random session id, blob oracle). -/
inductive ReqAction where
  | save (sid : Nat) (b : SaveBody)
  | gen (sid : Nat) (usn newSid : String) (now : Nat)
  | fin (sid : Nat) (usn session_id : String) (now : Nat) (acct : String)
      (ex : String → Bool)

/-- The database after one action (the response is discarded). -/
def applyAction (db : DB) : ReqAction → DB
  | .save sid b => (saveDetails db sid b).1
  | .gen sid usn newSid now => (generateUploadUrls db sid usn newSid now).1
  | .fin sid usn session_id now acct ex =>
      (finalizeSubmission db sid usn session_id now acct ex).1

/-- The database reached by running a sequence of actions. -/
def run (db : DB) (acts : List ReqAction) : DB :=
  acts.foldl applyAction db

/-- An initial database: given students, no applications, sessions or
documents yet. -/
def initDB (studs : List StudentRow) : DB :=
  { students := studs, apps := [], sessions := [], docs := [], nextAppId := 1 }

/-- Number of `student_applications` rows for one student. -/
def appCountFor (db : DB) (sid : Nat) : Nat :=
  (db.apps.filter (fun a => a.student_id == sid)).length

/-- The claim's "active" status set: everything except `REJECTED`. -/
def activeStatus (s : Status) : Bool :=
  s == .IN_PROGRESS || s == .SUBMITTED || s == .UNDER_REVIEW ||
    s == .APPROVED || s == .FINAL_APPROVED

/-- Number of rows for one student whose status is in the active set. -/
def activeCountFor (db : DB) (sid : Nat) : Nat :=
  (db.apps.filter (fun a => a.student_id == sid && activeStatus a.status)).length

/-- Number of `application_documents` rows for one `(application_id, document_type)` key. -/
def docCountFor (docs : List DocRow) (aid : Nat) (ty : String) : Nat :=
  (docs.filter (fun d => d.application_id == aid && d.document_type == ty)).length

/-- Sample valid `save_details` body used to instantiate theorems. -/
def exSaveBody : SaveBody :=
  { blood_group := .jstr "O+", address := .jstr "addr", department := .jstr "CS",
    year_of_study := .jnum 2, semester := .jnum 3, college_id := .jnum 7,
    college_code := .jstr "CC" }

/-- A second valid body, differing from `exSaveBody`. -/
def exSaveBody2 : SaveBody :=
  { exSaveBody with department := .jstr "EE", semester := .jnum 4 }

/-- Sample application row in a chosen status. -/
def exApp (st : Status) : AppRow :=
  { application_id := 1, student_id := 1, blood_group := "O+", address := "addr",
    department := "CS", year_of_study := 2, semester := 3, college_id := 7,
    college_code := "CC", status := st, submitted_at := none, reviewed_at := none,
    rejected_reason := none }

/-- Sample database: one student with the given `reapply_count`, one
application in the given status, one upload session expiring at 3000. -/
def exDB (st : Status) (rc : Nat) : DB :=
  { students := [{ student_id := 1, reapply_count := rc }],
    apps := [exApp st],
    sessions := [{ session_id := "s1", student_id := 1, application_id := 1,
                   expires_at := 3000 }],
    docs := [], nextAppId := 2 }

/-! ### List helper lemmas -/

theorem filter_map_comm {α : Type} (f : α → α) (p : α → Bool)
    (h : ∀ a, p (f a) = p a) (l : List α) :
    (l.map f).filter p = (l.filter p).map f := by
  induction l with
  | nil => rfl
  | cons x xs ih =>
    simp only [List.map_cons, List.filter_cons, h x]
    cases hp : p x <;> simp [hp, ih]

theorem head?_append_left {α : Type} (l l' : List α) (h : l ≠ []) :
    (l ++ l').head? = l.head? := by
  cases l with
  | nil => exact absurd rfl h
  | cons x xs => rfl

theorem length_filter_mono {α : Type} (p q : α → Bool)
    (h : ∀ a, p a = true → q a = true) (l : List α) :
    (l.filter p).length ≤ (l.filter q).length := by
  induction l with
  | nil => exact Nat.le_refl 0
  | cons x xs ih =>
    by_cases hp : p x = true
    · rw [List.filter_cons, List.filter_cons, if_pos hp, if_pos (h x hp)]
      simpa using ih
    · rw [List.filter_cons, if_neg hp]
      by_cases hq : q x = true
      · rw [List.filter_cons, if_pos hq]
        exact Nat.le_trans ih (by simp)
      · rw [List.filter_cons, if_neg hq]
        exact ih

/-! ### Evolution of the `student_applications` table under one action -/

/-- `resetApp` does not change the row's `student_id`. -/
theorem resetApp_student_id (b : SaveBody) (r : AppRow) :
    (resetApp b r).student_id = r.student_id := rfl

/-- `overwriteApp` does not change the row's `student_id`. -/
theorem overwriteApp_student_id (b : SaveBody) (r : AppRow) :
    (overwriteApp b r).student_id = r.student_id := rfl

/-- Every action either leaves `apps` unchanged, rewrites rows in place
without changing `student_id`, or appends one fresh row for a student who
had no row. -/
theorem apps_evolution (db : DB) (act : ReqAction) :
    (applyAction db act).apps = db.apps ∨
    (∃ f : AppRow → AppRow, (∀ r, (f r).student_id = r.student_id) ∧
      (applyAction db act).apps = db.apps.map f) ∨
    (∃ row : AppRow, appForStudent db row.student_id = none ∧
      (applyAction db act).apps = db.apps ++ [row]) := by
  cases act with
  | save sid b =>
    simp only [applyAction, saveDetails]
    cases hv : validateSave b with
    | some r => exact Or.inl (by simp)
    | none =>
      cases ha : appForStudent db sid with
      | some a =>
        by_cases hb : blockedStatus a.status = true
        · exact Or.inl (by simp [ha, hb])
        · by_cases hr : a.status = Status.REJECTED
          · by_cases hc : lookupReapply db.students sid > 0
            · exact Or.inl (by simp [ha, hb, hr, hc, blockedStatus])
            · refine Or.inr (Or.inl ⟨fun r =>
                if r.application_id == a.application_id then resetApp b r else r,
                fun r => ?_, by simp [ha, hb, hr, hc, blockedStatus]⟩)
              by_cases h : (r.application_id == a.application_id) = true <;>
                simp [h, resetApp_student_id]
          · refine Or.inr (Or.inl ⟨fun r =>
              if r.application_id == a.application_id then overwriteApp b r else r,
              fun r => ?_, by simp [ha, hb, hr]⟩)
            by_cases h : (r.application_id == a.application_id) = true <;>
              simp [h, overwriteApp_student_id]
      | none =>
        exact Or.inr (Or.inr ⟨freshApp db.nextAppId sid b, ha, by simp [ha]⟩)
  | gen sid usn newSid now =>
    simp only [applyAction, generateUploadUrls]
    cases ha : appForStudent db sid with
    | some a =>
      by_cases hs : a.status = Status.IN_PROGRESS
      · exact Or.inl (by simp [ha, hs])
      · exact Or.inl (by simp [ha, hs])
    | none => exact Or.inl (by simp [ha])
  | fin sid usn session_id now acct ex =>
    simp only [applyAction, finalizeSubmission]
    by_cases h0 : (session_id == "") = true
    · exact Or.inl (by simp [h0])
    · cases hs : sessionLookup db session_id sid with
      | none => exact Or.inl (by simp [h0, hs])
      | some s =>
        by_cases he : now > s.expires_at
        · exact Or.inl (by simp [h0, hs, he])
        · cases happ : appById db s.application_id with
          | none => exact Or.inl (by simp [h0, hs, he, happ])
          | some a =>
            by_cases hst : a.status = Status.IN_PROGRESS
            · by_cases hex : ex (blobPath a.college_code usn "aadhaar") = true ∧
                  ex (blobPath a.college_code usn "college_id_card") = true ∧
                  ex (blobPath a.college_code usn "marks_card_10th") = true
              · refine Or.inr (Or.inl ⟨fun r =>
                  if r.application_id == s.application_id then submitApp now r
                  else r, fun r => ?_, by simp [h0, hs, he, happ, hst, hex.1, hex.2.1, hex.2.2]⟩)
                by_cases h : (r.application_id == s.application_id) = true <;>
                  simp [h, submitApp]
              · exact Or.inl (by
                  simp only [h0, hs, he, happ, hst]
                  simp [hex])
            · exact Or.inl (by simp [h0, hs, he, happ, hst])

/-- One action keeps the per-student row count of `student_applications`
at or below one. -/
theorem appCountFor_step (db : DB) (act : ReqAction) (sid : Nat)
    (h : appCountFor db sid ≤ 1) : appCountFor (applyAction db act) sid ≤ 1 := by
  rcases apps_evolution db act with heq | ⟨f, hf, heq⟩ | ⟨row, hnone, heq⟩
  · simpa [appCountFor, heq] using h
  · rw [appCountFor, heq, filter_map_comm f _ (fun r => by simp [hf r])]
    simpa [appCountFor, List.length_map] using h
  · rw [appCountFor, heq, List.filter_append, List.length_append]
    by_cases hrow : (row.student_id == sid) = true
    · have hsid : row.student_id = sid := by simpa using hrow
      have hnil : db.apps.filter (fun a => a.student_id == row.student_id) = [] := by
        rw [appForStudent] at hnone
        exact List.head?_eq_none_iff.mp hnone
      rw [← hsid, hnil]
      simp
    · have : List.filter (fun a => a.student_id == sid) [row] = [] := by
        simp [List.filter, hrow]
      rw [this]
      simpa using h

/-- Applications per student stay at most one along any run. -/
theorem run_appCount_le_one (acts : List ReqAction) :
    ∀ db : DB, (∀ sid, appCountFor db sid ≤ 1) →
      ∀ sid, appCountFor (run db acts) sid ≤ 1 := by
  induction acts with
  | nil => intro db h sid; exact h sid
  | cons act rest ih =>
    intro db h sid
    exact ih (applyAction db act) (fun s => appCountFor_step db act s (h s)) sid

/-- Active rows are a sub-filter of all rows for the student. -/
theorem activeCountFor_le_appCountFor (db : DB) (sid : Nat) :
    activeCountFor db sid ≤ appCountFor db sid :=
  length_filter_mono _ _ (fun a ha => by
    simp only [Bool.and_eq_true] at ha
    exact ha.1) db.apps

/-- C1: starting from a database with students but no applications, after any
sequence of `save_details`, `generate_upload_urls` and `finalize_submission`
actions, each student has at most one `student_applications` row whose status
lies in {IN_PROGRESS, SUBMITTED, UNDER_REVIEW, APPROVED, FINAL_APPROVED}:
`save_details` inserts a fresh application only when the student has no
existing row, and no action ever creates a second one. -/
theorem claim_C1_at_most_one_active_application (studs : List StudentRow)
    (acts : List ReqAction) (sid : Nat) :
    activeCountFor (run (initDB studs) acts) sid ≤ 1 := by
  refine Nat.le_trans (activeCountFor_le_appCountFor _ _) ?_
  refine run_appCount_le_one acts (initDB studs) (fun s => ?_) sid
  simp [appCountFor, initDB]

/-! ### C6: generate_upload_urls guards -/

/-- C6: `generate_upload_urls` fails with 404 (NotFound) when the authenticated
student has no application row, and with the 400 InvalidState error when the
application's status is anything other than IN_PROGRESS; in both failure cases
the returned database is the input database, so no session row is created and
the response carries no upload URL. -/
theorem claim_C6_gen_urls_guards (db : DB) (sid : Nat) (usn newSid : String)
    (now : Nat) :
    (appForStudent db sid = none →
      generateUploadUrls db sid usn newSid now =
        (db, ⟨404, .err "No application found. Please save details first."⟩)) ∧
    (∀ a, appForStudent db sid = some a → a.status ≠ .IN_PROGRESS →
      generateUploadUrls db sid usn newSid now =
        (db, ⟨400, .err "Application must be in IN_PROGRESS status to upload documents."⟩)) := by
  constructor
  · intro h
    simp [generateUploadUrls, h]
  · intro a ha hst
    simp [generateUploadUrls, ha, hst]

/-- Witness for C6: a student with no application gets 404; a student whose
application is SUBMITTED gets the InvalidState 400. -/
theorem claim_C6_gen_urls_guards_witness :
    generateUploadUrls (initDB [{ student_id := 1, reapply_count := 0 }]) 1 "u" "n" 0 =
      (initDB [{ student_id := 1, reapply_count := 0 }],
        ⟨404, .err "No application found. Please save details first."⟩) ∧
    generateUploadUrls (exDB .SUBMITTED 0) 1 "u" "n" 0 =
      (exDB .SUBMITTED 0,
        ⟨400, .err "Application must be in IN_PROGRESS status to upload documents."⟩) :=
  ⟨(claim_C6_gen_urls_guards _ 1 "u" "n" 0).1 rfl,
   (claim_C6_gen_urls_guards _ 1 "u" "n" 0).2 (exApp .SUBMITTED) rfl (by decide)⟩

/-! ### C9: generate_upload_urls session frame property -/

/-- C9: a successful `generate_upload_urls` appends exactly one new session
row, leaves every other table and every earlier session row unchanged, and an
earlier session that was found by `finalize_submission`'s lookup is still
found afterwards (so, if within its expiry, it still validates). -/
theorem claim_C9_gen_urls_session_frame (db : DB) (sid : Nat)
    (usn newSid : String) (now : Nat) (a : AppRow)
    (ha : appForStudent db sid = some a) (hst : a.status = .IN_PROGRESS) :
    (generateUploadUrls db sid usn newSid now).2.statusCode = 200 ∧
    (generateUploadUrls db sid usn newSid now).1 =
      { db with sessions := db.sessions ++
          [{ session_id := newSid, student_id := sid,
             application_id := a.application_id,
             expires_at := now + SESSION_EXPIRY_MINUTES * 60 * 1000 }] } ∧
    (∀ sid2 sess s0, sessionLookup db sess sid2 = some s0 →
      sessionLookup (generateUploadUrls db sid usn newSid now).1 sess sid2 = some s0) := by
  have hgen : (generateUploadUrls db sid usn newSid now).1 =
      { db with sessions := db.sessions ++
          [{ session_id := newSid, student_id := sid,
             application_id := a.application_id,
             expires_at := now + SESSION_EXPIRY_MINUTES * 60 * 1000 }] } := by
    simp [generateUploadUrls, ha, hst]
  refine ⟨by simp [generateUploadUrls, ha, hst], hgen, ?_⟩
  intro sid2 sess s0 h
  have hne : db.sessions.filter
      (fun s => s.session_id == sess && s.student_id == sid2) ≠ [] := by
    intro hnil
    rw [sessionLookup, hnil] at h
    simp at h
  rw [hgen, sessionLookup]
  show ((db.sessions ++ [_]).filter _).head? = some s0
  rw [List.filter_append, head?_append_left _ _ hne]
  exact h

/-- Witness for C9 at a concrete database: the pre-existing session "s1"
is still found after a second `generate_upload_urls`. -/
theorem claim_C9_gen_urls_session_frame_witness :
    (generateUploadUrls (exDB .IN_PROGRESS 0) 1 "u" "n2" 100).2.statusCode = 200 ∧
    sessionLookup (generateUploadUrls (exDB .IN_PROGRESS 0) 1 "u" "n2" 100).1 "s1" 1 =
      some { session_id := "s1", student_id := 1, application_id := 1,
             expires_at := 3000 } :=
  ⟨(claim_C9_gen_urls_session_frame (exDB .IN_PROGRESS 0) 1 "u" "n2" 100
      (exApp .IN_PROGRESS) rfl rfl).1,
   (claim_C9_gen_urls_session_frame (exDB .IN_PROGRESS 0) 1 "u" "n2" 100
      (exApp .IN_PROGRESS) rfl rfl).2.2 1 "s1" _ rfl⟩

/-! ### C10: numeric validation of year_of_study and semester -/

/-- Every response produced by the validation chain is a 400. -/
theorem validateSave_some_code (b : SaveBody) (r : Resp)
    (h : validateSave b = some r) : r.statusCode = 400 := by
  unfold validateSave at h
  split_ifs at h <;> (cases Option.some.inj h; rfl)

/-- If `year_of_study` is a JSON string, the validation chain fails. -/
theorem validateSave_some_of_year_str (b : SaveBody) (s : String)
    (hy : b.year_of_study = .jstr s) : ∃ r, validateSave b = some r := by
  unfold validateSave
  split_ifs with h1 h2 h3 h4 <;> try exact ⟨_, rfl⟩
  exfalso
  obtain ⟨-, hnum, -⟩ := h4
  rw [hy] at hnum
  simp [JVal.isNum] at hnum

/-- If `semester` is a JSON string, the validation chain fails. -/
theorem validateSave_some_of_sem_str (b : SaveBody) (s : String)
    (hm : b.semester = .jstr s) : ∃ r, validateSave b = some r := by
  unfold validateSave
  split_ifs with h1 h2 h3 h4 h5 <;> try exact ⟨_, rfl⟩
  exfalso
  obtain ⟨-, hnum, -⟩ := h5
  rw [hm] at hnum
  simp [JVal.isNum] at hnum

/-- C10: a `save_details` body passes validation only if `year_of_study` and
`semester` are JSON numbers within [1,4] resp. [1,8]; a numeric string such
as `"3"` in either field is rejected with a 400 validation error and the
database is returned unchanged (the validation chain precedes every query of
the branch). -/
theorem claim_C10_numeric_validation (db : DB) (sid : Nat) (b : SaveBody) :
    (validateSave b = none →
      (∃ n, b.year_of_study = .jnum n ∧ 1 ≤ n ∧ n ≤ 4) ∧
      (∃ m, b.semester = .jnum m ∧ 1 ≤ m ∧ m ≤ 8)) ∧
    (∀ s, b.year_of_study = .jstr s →
      (saveDetails db sid b).1 = db ∧ (saveDetails db sid b).2.statusCode = 400) ∧
    (∀ s, b.semester = .jstr s →
      (saveDetails db sid b).1 = db ∧ (saveDetails db sid b).2.statusCode = 400) := by
  refine ⟨?_, ?_, ?_⟩
  · intro h
    unfold validateSave at h
    split_ifs at h with h1 h2 h3 h4 h5 h6
    have hy := h4
    have hm := h5
    constructor
    · obtain ⟨-, hnum, hlo, hhi⟩ := hy
      cases hcase : b.year_of_study with
      | jnum n =>
        refine ⟨n, rfl, ?_, ?_⟩
        · rw [hcase] at hlo; simpa [JVal.asInt] using hlo
        · rw [hcase] at hhi; simpa [JVal.asInt] using hhi
      | jstr s => rw [hcase] at hnum; simp [JVal.isNum] at hnum
      | jnull => rw [hcase] at hnum; simp [JVal.isNum] at hnum
    · obtain ⟨-, hnum, hlo, hhi⟩ := hm
      cases hcase : b.semester with
      | jnum m =>
        refine ⟨m, rfl, ?_, ?_⟩
        · rw [hcase] at hlo; simpa [JVal.asInt] using hlo
        · rw [hcase] at hhi; simpa [JVal.asInt] using hhi
      | jstr s => rw [hcase] at hnum; simp [JVal.isNum] at hnum
      | jnull => rw [hcase] at hnum; simp [JVal.isNum] at hnum
  · intro s hs
    obtain ⟨r, hr⟩ := validateSave_some_of_year_str b s hs
    exact ⟨by simp [saveDetails, hr], by
      simp [saveDetails, hr, validateSave_some_code b r hr]⟩
  · intro s hs
    obtain ⟨r, hr⟩ := validateSave_some_of_sem_str b s hs
    exact ⟨by simp [saveDetails, hr], by
      simp [saveDetails, hr, validateSave_some_code b r hr]⟩

/-- Witness for C10: the valid body passes with in-range numbers, and the
same body with `year_of_study = "3"` (a numeric string) is rejected 400 with
the database untouched. -/
theorem claim_C10_numeric_validation_witness :
    ((∃ n, exSaveBody.year_of_study = .jnum n ∧ 1 ≤ n ∧ n ≤ 4) ∧
      (∃ m, exSaveBody.semester = .jnum m ∧ 1 ≤ m ∧ m ≤ 8)) ∧
    ((saveDetails (exDB .IN_PROGRESS 0) 1
        { exSaveBody with year_of_study := .jstr "3" }).1 = exDB .IN_PROGRESS 0 ∧
      (saveDetails (exDB .IN_PROGRESS 0) 1
        { exSaveBody with year_of_study := .jstr "3" }).2.statusCode = 400) :=
  ⟨(claim_C10_numeric_validation (exDB .IN_PROGRESS 0) 1 exSaveBody).1 (by decide),
   (claim_C10_numeric_validation (exDB .IN_PROGRESS 0) 1
      { exSaveBody with year_of_study := .jstr "3" }).2.1 "3" rfl⟩

/-! ### C5: session absence vs expiry in finalize_submission -/

/-- C5 counterexample: with the same database, a `finalize_submission` whose
session row is present but past `expires_at` returns status 400 ("Session has
expired"), while one whose session row is absent returns 404 ("Invalid or
expired session") — the two failures do NOT share the same NotFound error
kind, contrary to the claim. -/
theorem claim_C5_counterexample :
    (finalizeSubmission (exDB .IN_PROGRESS 0) 1 "u" "s1" 5000 "acct"
      (fun _ => true)).2 =
        ⟨400, .err "Session has expired. Please restart the upload process."⟩ ∧
    (finalizeSubmission (exDB .IN_PROGRESS 0) 1 "u" "zz" 5000 "acct"
      (fun _ => true)).2 =
        ⟨404, .err "Invalid or expired session"⟩ ∧
    (400 : Nat) ≠ 404 := by
  refine ⟨?_, ?_, by decide⟩ <;> decide

/-- C5 (amended): an absent `(session_id, student_id)` row and an expired one
both abort `finalize_submission` with no durable write (the database is
returned unchanged), but with distinct error kinds: absence yields the 404
NotFound response, expiry yields a 400 response. -/
theorem claim_C5_amended_absent_vs_expired (db : DB) (sid : Nat)
    (usn session_id : String) (now : Nat) (acct : String) (ex : String → Bool)
    (h0 : session_id ≠ "") :
    (sessionLookup db session_id sid = none →
      finalizeSubmission db sid usn session_id now acct ex =
        (db, ⟨404, .err "Invalid or expired session"⟩)) ∧
    (∀ s, sessionLookup db session_id sid = some s → now > s.expires_at →
      finalizeSubmission db sid usn session_id now acct ex =
        (db, ⟨400, .err "Session has expired. Please restart the upload process."⟩)) := by
  have h0' : (session_id == "") = false := by simp [h0]
  constructor
  · intro h
    simp [finalizeSubmission, h0', h]
  · intro s hs hexp
    simp [finalizeSubmission, h0', hs, hexp]

/-- Witness for C5 (amended) at the concrete database of the counterexample. -/
theorem claim_C5_amended_absent_vs_expired_witness :
    finalizeSubmission (exDB .IN_PROGRESS 0) 1 "u" "zz" 5000 "acct" (fun _ => true) =
      (exDB .IN_PROGRESS 0, ⟨404, .err "Invalid or expired session"⟩) ∧
    finalizeSubmission (exDB .IN_PROGRESS 0) 1 "u" "s1" 5000 "acct" (fun _ => true) =
      (exDB .IN_PROGRESS 0,
        ⟨400, .err "Session has expired. Please restart the upload process."⟩) :=
  ⟨(claim_C5_amended_absent_vs_expired (exDB .IN_PROGRESS 0) 1 "u" "zz" 5000 "acct"
      (fun _ => true) (by decide)).1 (by decide),
   (claim_C5_amended_absent_vs_expired (exDB .IN_PROGRESS 0) 1 "u" "s1" 5000 "acct"
      (fun _ => true) (by decide)).2
      { session_id := "s1", student_id := 1, application_id := 1, expires_at := 3000 }
      (by decide) (by decide)⟩

/-! ### C2: incomplete upload check before any write -/

/-- C2: when `finalize_submission` has passed session validation (row found,
not expired) and status validation (application found, IN_PROGRESS) but at
least one of the three required blobs does not exist, the call returns a 400
error whose message names exactly the missing document types, and the
database is returned unchanged: no `application_documents` row is written and
the application status is untouched (no partial commit; the three existence
checks happen before any write by construction of the branch). -/
theorem claim_C2_incomplete_upload_no_partial_commit (db : DB) (sid : Nat)
    (usn session_id : String) (now : Nat) (acct : String) (ex : String → Bool)
    (s : SessionRow) (a : AppRow)
    (h0 : session_id ≠ "")
    (hs : sessionLookup db session_id sid = some s)
    (hexp : ¬ now > s.expires_at)
    (ha : appById db s.application_id = some a)
    (hst : a.status = .IN_PROGRESS)
    (hmiss : ¬ (ex (blobPath a.college_code usn "aadhaar") = true ∧
                ex (blobPath a.college_code usn "college_id_card") = true ∧
                ex (blobPath a.college_code usn "marks_card_10th") = true)) :
    finalizeSubmission db sid usn session_id now acct ex =
      (db, ⟨400, .err ("Missing documents: " ++ String.intercalate ", "
        (missingDocs (ex (blobPath a.college_code usn "aadhaar"))
          (ex (blobPath a.college_code usn "college_id_card"))
          (ex (blobPath a.college_code usn "marks_card_10th"))) ++
        ". Please upload all required documents.")⟩) ∧
    (∀ aE cE mE : Bool,
      ("Aadhaar Card" ∈ missingDocs aE cE mE ↔ aE = false) ∧
      ("College ID Card" ∈ missingDocs aE cE mE ↔ cE = false) ∧
      ("10th Marks Card" ∈ missingDocs aE cE mE ↔ mE = false)) ∧
    missingDocs (ex (blobPath a.college_code usn "aadhaar"))
      (ex (blobPath a.college_code usn "college_id_card"))
      (ex (blobPath a.college_code usn "marks_card_10th")) ≠ [] := by
  have h0' : (session_id == "") = false := by simp [h0]
  refine ⟨?_, by decide, ?_⟩
  · simp [finalizeSubmission, h0', hs, hexp, ha, hst, hmiss]
  · revert hmiss
    cases hA : ex (blobPath a.college_code usn "aadhaar") <;>
      cases hC : ex (blobPath a.college_code usn "college_id_card") <;>
        cases hM : ex (blobPath a.college_code usn "marks_card_10th") <;>
          simp [missingDocs]

/-- Witness for C2: with only the college id card blob missing, finalize
returns the 400 naming exactly "College ID Card" and leaves the database
unchanged. -/
theorem claim_C2_incomplete_upload_no_partial_commit_witness :
    finalizeSubmission (exDB .IN_PROGRESS 0) 1 "u" "s1" 2000 "acct"
      (fun p => ¬ p = "CC/u/college_id_card") =
      (exDB .IN_PROGRESS 0, ⟨400, .err
        "Missing documents: College ID Card. Please upload all required documents."⟩) := by
  have h := (claim_C2_incomplete_upload_no_partial_commit (exDB .IN_PROGRESS 0) 1
    "u" "s1" 2000 "acct" (fun p => ¬ p = "CC/u/college_id_card")
    { session_id := "s1", student_id := 1, application_id := 1, expires_at := 3000 }
    (exApp .IN_PROGRESS) (by decide) (by decide) (by decide) (by decide) (by decide)
    (by decide)).1
  simpa using h

/-! ### Document upsert lemmas -/

/-- An element delivered by `head?` of a filter satisfies the filter. -/
theorem head?_filter_pred {α : Type} (p : α → Bool) (l : List α) (a : α)
    (h : (l.filter p).head? = some a) : p a = true := by
  have ha : a ∈ l.filter p := by
    cases hl : l.filter p with
    | nil => rw [hl] at h; cases h
    | cons x xs =>
      rw [hl] at h
      cases Option.some.inj h
      exact List.mem_cons_self ..
  exact (List.mem_filter.mp ha).2

/-- `head?` of a filter over a key-preserving map. -/
theorem head?_filter_map {α : Type} (f : α → α) (p : α → Bool)
    (hf : ∀ x, p (f x) = p x) (l : List α) :
    ((l.map f).filter p).head? = ((l.filter p).head?).map f := by
  rw [filter_map_comm f p hf, List.head?_map]

/-- Upserting a type brings that key's row count to exactly one. -/
theorem upsertDoc_count_self (docs : List DocRow) (aid : Nat) (ty url : String)
    (now : Nat) (h : docCountFor docs aid ty ≤ 1) :
    docCountFor (upsertDoc docs aid ty url now) aid ty = 1 := by
  unfold docCountFor at h ⊢
  unfold upsertDoc
  by_cases hany :
      (docs.any (fun d => d.application_id == aid && d.document_type == ty)) = true
  · rw [if_pos hany, filter_map_comm _ _ (fun d => by
      by_cases hd : (d.application_id == aid && d.document_type == ty) = true <;>
        simp [hd]), List.length_map]
    obtain ⟨x, hx, hpx⟩ := List.any_eq_true.mp hany
    have hmem : x ∈ docs.filter (fun d =>
        d.application_id == aid && d.document_type == ty) :=
      List.mem_filter.mpr ⟨hx, hpx⟩
    have h1 : 0 < (docs.filter (fun d =>
        d.application_id == aid && d.document_type == ty)).length :=
      List.length_pos.mpr (List.ne_nil_of_mem hmem)
    omega
  · rw [if_neg hany, List.filter_append]
    have hnil : docs.filter (fun d =>
        d.application_id == aid && d.document_type == ty) = [] := by
      refine List.filter_eq_nil_iff.mpr (fun d hd => ?_)
      intro hpd
      exact hany (List.any_eq_true.mpr ⟨d, hd, hpd⟩)
    simp [hnil]

/-- Upserting one type leaves the row count of a different type unchanged. -/
theorem upsertDoc_count_other (docs : List DocRow) (aid aid' : Nat)
    (ty ty' url : String) (now : Nat) (hne : ty' ≠ ty) :
    docCountFor (upsertDoc docs aid ty url now) aid' ty' =
      docCountFor docs aid' ty' := by
  unfold docCountFor upsertDoc
  by_cases hany :
      (docs.any (fun d => d.application_id == aid && d.document_type == ty)) = true
  · rw [if_pos hany, filter_map_comm _ _ (fun d => by
      by_cases hd : (d.application_id == aid && d.document_type == ty) = true <;>
        simp [hd]), List.length_map]
  · rw [if_neg hany, List.filter_append]
    simp [Ne.symm hne]

/-- Upserting a type whose name satisfies `P` preserves a `P`-domain
invariant on the rows of the application. -/
theorem upsertDoc_types (docs : List DocRow) (aid : Nat) (ty url : String)
    (now : Nat) (P : String → Prop)
    (h : ∀ d ∈ docs, d.application_id = aid → P d.document_type) (hty : P ty) :
    ∀ d ∈ upsertDoc docs aid ty url now, d.application_id = aid →
      P d.document_type := by
  unfold upsertDoc
  by_cases hany :
      (docs.any (fun d => d.application_id == aid && d.document_type == ty)) = true
  · rw [if_pos hany]
    intro d hd haid
    obtain ⟨d0, hd0, rfl⟩ := List.mem_map.mp hd
    by_cases hp : (d0.application_id == aid && d0.document_type == ty) = true
    · rw [if_pos hp] at haid ⊢
      exact h d0 hd0 haid
    · rw [if_neg hp] at haid ⊢
      exact h d0 hd0 haid
  · rw [if_neg hany]
    intro d hd haid
    rcases List.mem_append.mp hd with h1 | h1
    · exact h d h1 haid
    · have hd1 : d = { application_id := aid, document_type := ty,
                         document_url := url, uploaded_at := none } := by
        simpa using h1
      rw [hd1]
      exact hty

/-- A list of document rows for one application whose types all lie in the
three required ones has length equal to the sum of the per-type counts. -/
theorem three_type_length (l : List DocRow) (aid : Nat)
    (h : ∀ d ∈ l, d.application_id = aid →
      d.document_type = "AADHAR" ∨ d.document_type = "COLLEGE_ID" ∨
        d.document_type = "SSLC") :
    (l.filter (fun d => d.application_id == aid)).length =
      docCountFor l aid "AADHAR" + docCountFor l aid "COLLEGE_ID" +
        docCountFor l aid "SSLC" := by
  have eAC : (("AADHAR" : String) == "COLLEGE_ID") = false := by decide
  have eAS : (("AADHAR" : String) == "SSLC") = false := by decide
  have eCA : (("COLLEGE_ID" : String) == "AADHAR") = false := by decide
  have eCS : (("COLLEGE_ID" : String) == "SSLC") = false := by decide
  have eSA : (("SSLC" : String) == "AADHAR") = false := by decide
  have eSC : (("SSLC" : String) == "COLLEGE_ID") = false := by decide
  induction l with
  | nil => rfl
  | cons d rest ih =>
    have hrest := ih (fun d' hd' => h d' (List.mem_cons_of_mem _ hd'))
    unfold docCountFor at hrest ⊢
    by_cases haid : (d.application_id == aid) = true
    · rcases h d (List.mem_cons_self ..) (by simpa using haid) with ht | ht | ht <;>
        · simp only [List.filter_cons, haid, Bool.true_and, ht, eAC, eAS, eCA,
            eCS, eSA, eSC, BEq.refl, if_true, if_false, Bool.false_eq_true,
            List.length_cons]
          omega
    · simp only [List.filter_cons, haid, Bool.false_and, if_neg Bool.false_ne_true]
      exact hrest

/-! ### C3: successful finalize -/

/-- C3 counterexample: a fully successful `finalize_submission` (status 200)
leaves the session row in `application_sessions` — the handler never issues
the `DELETE`, so the claim's "consumes the session (deletes the session row)"
is false for this code. -/
theorem claim_C3_counterexample :
    (finalizeSubmission (exDB .IN_PROGRESS 0) 1 "u" "s1" 2000 "acct"
      (fun _ => true)).2.statusCode = 200 ∧
    (finalizeSubmission (exDB .IN_PROGRESS 0) 1 "u" "s1" 2000 "acct"
      (fun _ => true)).1.sessions =
      [{ session_id := "s1", student_id := 1, application_id := 1,
         expires_at := 3000 }] := by
  constructor <;> decide

/-- On a fully validated finalize with all three blobs present, the handler
performs the three document upserts, the status update, and returns 200. -/
theorem finalize_success_eq (db : DB) (sid : Nat) (usn session_id : String)
    (now : Nat) (acct : String) (ex : String → Bool) (s : SessionRow) (a : AppRow)
    (h0 : session_id ≠ "")
    (hs : sessionLookup db session_id sid = some s)
    (hexp : ¬ now > s.expires_at)
    (ha : appById db s.application_id = some a)
    (hst : a.status = .IN_PROGRESS)
    (hall : ex (blobPath a.college_code usn "aadhaar") = true ∧
            ex (blobPath a.college_code usn "college_id_card") = true ∧
            ex (blobPath a.college_code usn "marks_card_10th") = true) :
    finalizeSubmission db sid usn session_id now acct ex =
      ({ db with
          docs := upsertDoc (upsertDoc (upsertDoc db.docs s.application_id
              "AADHAR" (documentUrl acct a.college_code usn "aadhaar") now)
            s.application_id "COLLEGE_ID"
              (documentUrl acct a.college_code usn "college_id_card") now)
            s.application_id "SSLC"
              (documentUrl acct a.college_code usn "marks_card_10th") now
          apps := db.apps.map (fun r =>
            if r.application_id == s.application_id then submitApp now r else r) },
       ⟨200, .finalized
         "Application submitted successfully! Your application is now under review."⟩) := by
  have h0' : (session_id == "") = false := by simp [h0]
  simp [finalizeSubmission, h0', hs, hexp, ha, hst, hall.1, hall.2.1, hall.2.2]

/-- A finalize against an application that is already SUBMITTED fails with
the InvalidState 400 and leaves the database unchanged. -/
theorem finalize_blocked_after_submit (db' : DB) (sid : Nat)
    (usn2 session_id : String) (now2 : Nat) (acct2 : String)
    (ex2 : String → Bool) (s : SessionRow) (r : AppRow)
    (h0 : session_id ≠ "")
    (hs : sessionLookup db' session_id sid = some s)
    (hexp : ¬ now2 > s.expires_at)
    (ha : appById db' s.application_id = some r)
    (hst : r.status = .SUBMITTED) :
    finalizeSubmission db' sid usn2 session_id now2 acct2 ex2 =
      (db', ⟨400, .err "Application is not in IN_PROGRESS status"⟩) := by
  have h0' : (session_id == "") = false := by simp [h0]
  simp [finalizeSubmission, h0', hs, hexp, ha, hst]

/-- C3 (amended): a successful `finalize_submission` leaves exactly three
`application_documents` rows for the application (one per required type, via
insert-or-update on the `(application_id, document_type)` key), sets the
application's status to SUBMITTED with `submitted_at = now`, and — unlike the
claim — does NOT delete the session row (`sessions` is unchanged); the session
nevertheless cannot drive a second successful finalize, because the
application is no longer IN_PROGRESS, so any retry with it fails 400 with no
further write. -/
theorem claim_C3_amended_successful_finalize (db : DB) (sid : Nat)
    (usn session_id : String) (now : Nat) (acct : String) (ex : String → Bool)
    (s : SessionRow) (a : AppRow)
    (h0 : session_id ≠ "")
    (hs : sessionLookup db session_id sid = some s)
    (hexp : ¬ now > s.expires_at)
    (ha : appById db s.application_id = some a)
    (hst : a.status = .IN_PROGRESS)
    (hall : ex (blobPath a.college_code usn "aadhaar") = true ∧
            ex (blobPath a.college_code usn "college_id_card") = true ∧
            ex (blobPath a.college_code usn "marks_card_10th") = true)
    (hcnt : docCountFor db.docs s.application_id "AADHAR" ≤ 1 ∧
            docCountFor db.docs s.application_id "COLLEGE_ID" ≤ 1 ∧
            docCountFor db.docs s.application_id "SSLC" ≤ 1)
    (hdom : ∀ d ∈ db.docs, d.application_id = s.application_id →
      d.document_type = "AADHAR" ∨ d.document_type = "COLLEGE_ID" ∨
        d.document_type = "SSLC") :
    (finalizeSubmission db sid usn session_id now acct ex).2.statusCode = 200 ∧
    (finalizeSubmission db sid usn session_id now acct ex).1.sessions =
      db.sessions ∧
    appById (finalizeSubmission db sid usn session_id now acct ex).1
      s.application_id = some (submitApp now a) ∧
    (submitApp now a).status = .SUBMITTED ∧
    (submitApp now a).submitted_at = some now ∧
    docCountFor (finalizeSubmission db sid usn session_id now acct ex).1.docs
      s.application_id "AADHAR" = 1 ∧
    docCountFor (finalizeSubmission db sid usn session_id now acct ex).1.docs
      s.application_id "COLLEGE_ID" = 1 ∧
    docCountFor (finalizeSubmission db sid usn session_id now acct ex).1.docs
      s.application_id "SSLC" = 1 ∧
    ((finalizeSubmission db sid usn session_id now acct ex).1.docs.filter
      (fun d => d.application_id == s.application_id)).length = 3 ∧
    (∀ (usn2 : String) (now2 : Nat) (acct2 : String) (ex2 : String → Bool),
      ¬ now2 > s.expires_at →
      finalizeSubmission (finalizeSubmission db sid usn session_id now acct ex).1
          sid usn2 session_id now2 acct2 ex2 =
        ((finalizeSubmission db sid usn session_id now acct ex).1,
         ⟨400, .err "Application is not in IN_PROGRESS status"⟩)) := by
  have heq := finalize_success_eq db sid usn session_id now acct ex s a
    h0 hs hexp ha hst hall
  set aid := s.application_id with haid
  have hpa : (a.application_id == aid) = true :=
    head?_filter_pred _ db.apps a ha
  -- the updated application row
  have happs : (finalizeSubmission db sid usn session_id now acct ex).1.apps =
      db.apps.map (fun r => if r.application_id == aid then submitApp now r else r) := by
    rw [heq]
  have hdocs : (finalizeSubmission db sid usn session_id now acct ex).1.docs =
      upsertDoc (upsertDoc (upsertDoc db.docs aid
          "AADHAR" (documentUrl acct a.college_code usn "aadhaar") now)
        aid "COLLEGE_ID" (documentUrl acct a.college_code usn "college_id_card") now)
        aid "SSLC" (documentUrl acct a.college_code usn "marks_card_10th") now := by
    rw [heq]
  have hpa' : a.application_id = aid := by simpa using hpa
  have hbyid : appById (finalizeSubmission db sid usn session_id now acct ex).1 aid =
      some (submitApp now a) := by
    rw [appById, happs, head?_filter_map _ _ (fun r => by
      by_cases hr : (r.application_id == aid) = true <;> simp [hr, submitApp])]
    rw [appById] at ha
    rw [ha]
    simp [hpa']
  -- document counts
  have hc1 : docCountFor (finalizeSubmission db sid usn session_id now acct ex).1.docs
      aid "AADHAR" = 1 := by
    rw [hdocs]
    rw [upsertDoc_count_other _ _ _ _ _ _ _ (by decide),
        upsertDoc_count_other _ _ _ _ _ _ _ (by decide)]
    exact upsertDoc_count_self _ _ _ _ _ hcnt.1
  have hc2 : docCountFor (finalizeSubmission db sid usn session_id now acct ex).1.docs
      aid "COLLEGE_ID" = 1 := by
    rw [hdocs]
    rw [upsertDoc_count_other _ _ _ _ _ _ _ (by decide)]
    refine upsertDoc_count_self _ _ _ _ _ ?_
    rw [upsertDoc_count_other _ _ _ _ _ _ _ (by decide)]
    exact hcnt.2.1
  have hc3 : docCountFor (finalizeSubmission db sid usn session_id now acct ex).1.docs
      aid "SSLC" = 1 := by
    rw [hdocs]
    refine upsertDoc_count_self _ _ _ _ _ ?_
    rw [upsertDoc_count_other _ _ _ _ _ _ _ (by decide),
        upsertDoc_count_other _ _ _ _ _ _ _ (by decide)]
    exact hcnt.2.2
  have hdom3 : ∀ d ∈ (finalizeSubmission db sid usn session_id now acct ex).1.docs,
      d.application_id = aid →
      d.document_type = "AADHAR" ∨ d.document_type = "COLLEGE_ID" ∨
        d.document_type = "SSLC" := by
    rw [hdocs]
    refine upsertDoc_types _ _ _ _ _
      (fun t => t = "AADHAR" ∨ t = "COLLEGE_ID" ∨ t = "SSLC") ?_
      (Or.inr (Or.inr rfl))
    refine upsertDoc_types _ _ _ _ _
      (fun t => t = "AADHAR" ∨ t = "COLLEGE_ID" ∨ t = "SSLC") ?_
      (Or.inr (Or.inl rfl))
    exact upsertDoc_types _ _ _ _ _
      (fun t => t = "AADHAR" ∨ t = "COLLEGE_ID" ∨ t = "SSLC") hdom (Or.inl rfl)
  have hlen : ((finalizeSubmission db sid usn session_id now acct ex).1.docs.filter
      (fun d => d.application_id == aid)).length = 3 := by
    rw [three_type_length _ _ hdom3, hc1, hc2, hc3]
  have hsess : (finalizeSubmission db sid usn session_id now acct ex).1.sessions =
      db.sessions := by
    rw [heq]
  refine ⟨by rw [heq], hsess, hbyid, rfl, rfl, hc1, hc2, hc3, hlen, ?_⟩
  intro usn2 now2 acct2 ex2 hexp2
  have hs2 : sessionLookup (finalizeSubmission db sid usn session_id now acct ex).1
      session_id sid = some s := by
    rw [sessionLookup]
    rw [show (finalizeSubmission db sid usn session_id now acct ex).1.sessions =
      db.sessions from hsess]
    exact hs
  exact finalize_blocked_after_submit _ sid usn2 session_id now2 acct2 ex2 s
    (submitApp now a) h0 hs2 hexp2 hbyid rfl

/-- Witness for C3 (amended) at a concrete database: 200, three document
rows, session row untouched, and the retry with the same session fails 400. -/
theorem claim_C3_amended_successful_finalize_witness :
    (finalizeSubmission (exDB .IN_PROGRESS 0) 1 "u" "s1" 2000 "acct"
      (fun _ => true)).2.statusCode = 200 ∧
    (finalizeSubmission (exDB .IN_PROGRESS 0) 1 "u" "s1" 2000 "acct"
      (fun _ => true)).1.sessions = (exDB .IN_PROGRESS 0).sessions ∧
    ((finalizeSubmission (exDB .IN_PROGRESS 0) 1 "u" "s1" 2000 "acct"
      (fun _ => true)).1.docs.filter (fun d => d.application_id == 1)).length = 3 ∧
    finalizeSubmission (finalizeSubmission (exDB .IN_PROGRESS 0) 1 "u" "s1" 2000
        "acct" (fun _ => true)).1 1 "u" "s1" 2500 "acct" (fun _ => true) =
      ((finalizeSubmission (exDB .IN_PROGRESS 0) 1 "u" "s1" 2000 "acct"
        (fun _ => true)).1,
       ⟨400, .err "Application is not in IN_PROGRESS status"⟩) := by
  have h := claim_C3_amended_successful_finalize (exDB .IN_PROGRESS 0) 1 "u" "s1"
    2000 "acct" (fun _ => true)
    { session_id := "s1", student_id := 1, application_id := 1, expires_at := 3000 }
    (exApp .IN_PROGRESS) (by decide) (by decide) (by decide) (by decide) (by decide)
    ⟨rfl, rfl, rfl⟩ ⟨by decide, by decide, by decide⟩ (by simp [exDB])
  exact ⟨h.1, h.2.1, h.2.2.2.2.2.2.2.2.1, h.2.2.2.2.2.2.2.2.2 "u" 2500 "acct"
    (fun _ => true) (by decide)⟩

/-! ### C4: reapply from REJECTED -/

/-- C4: on `save_details` for a student whose application is REJECTED: if the
reapply count is already positive (the code's cap check is `reapplyCount > 0`)
the call fails 403 Forbidden with the database unchanged; if the count is
zero, the application row is reset to IN_PROGRESS with `submitted_at`,
`reviewed_at` and `rejected_reason` cleared and the new field values
persisted, and the student's `reapply_count` is incremented by exactly one. -/
theorem claim_C4_rejected_reapply (db : DB) (sid : Nat) (b : SaveBody)
    (a : AppRow) (srow : StudentRow)
    (hv : validateSave b = none)
    (hone : db.apps.filter (fun r => r.student_id == sid) = [a])
    (hst : a.status = .REJECTED)
    (hsrow : (db.students.filter (fun st => st.student_id == sid)).head? = some srow) :
    (0 < lookupReapply db.students sid →
      saveDetails db sid b =
        (db, ⟨403, .err "You have exceeded the reapply limit. Cannot submit application."⟩)) ∧
    (lookupReapply db.students sid = 0 →
      (saveDetails db sid b).2 =
        ⟨200, .saved "Application details updated successfully" a.application_id⟩ ∧
      (saveDetails db sid b).1.apps.filter (fun r => r.student_id == sid) =
        [resetApp b a] ∧
      (resetApp b a).status = .IN_PROGRESS ∧
      (resetApp b a).submitted_at = none ∧
      (resetApp b a).reviewed_at = none ∧
      (resetApp b a).rejected_reason = none ∧
      lookupReapply (saveDetails db sid b).1.students sid =
        lookupReapply db.students sid + 1) := by
  have happ : appForStudent db sid = some a := by
    rw [appForStudent, hone]
    rfl
  have hblocked : blockedStatus a.status = false := by rw [hst]; decide
  constructor
  · intro hc
    simp [saveDetails, hv, happ, hst, hc, blockedStatus]
  · intro hc
    have heq : saveDetails db sid b =
        ({ db with
            apps := db.apps.map (fun r =>
              if r.application_id == a.application_id then resetApp b r else r)
            students := incReapply db.students sid },
         ⟨200, .saved "Application details updated successfully" a.application_id⟩) := by
      simp [saveDetails, hv, happ, hst, hc, blockedStatus]
    have hfilter : (saveDetails db sid b).1.apps.filter
        (fun r => r.student_id == sid) = [resetApp b a] := by
      rw [show (saveDetails db sid b).1.apps = db.apps.map (fun r =>
        if r.application_id == a.application_id then resetApp b r else r) from by
          rw [heq]]
      rw [filter_map_comm _ _ (fun r => by
        by_cases hr : (r.application_id == a.application_id) = true <;>
          simp [hr, resetApp_student_id])]
      rw [hone]
      simp
    have hsrow_pred : (srow.student_id == sid) = true :=
      head?_filter_pred (fun st => st.student_id == sid) db.students srow hsrow
    have hinc : lookupReapply (saveDetails db sid b).1.students sid =
        lookupReapply db.students sid + 1 := by
      rw [show (saveDetails db sid b).1.students = incReapply db.students sid from by
        rw [heq]]
      rw [lookupReapply, incReapply]
      rw [filter_map_comm _ _ (fun st => by
        by_cases hs' : (st.student_id == sid) = true <;> simp [hs'])]
      rw [List.head?_map, hsrow, lookupReapply, hsrow]
      have hsp : srow.student_id = sid := by simpa using hsrow_pred
      simp [hsp]
    exact ⟨by rw [heq], hfilter, rfl, rfl, rfl, rfl, hinc⟩

/-- Witness for C4: with `reapply_count = 1` the reapply is Forbidden and the
database unchanged; with `reapply_count = 0` it succeeds and the count is
incremented by one. -/
theorem claim_C4_rejected_reapply_witness :
    saveDetails (exDB .REJECTED 1) 1 exSaveBody =
      (exDB .REJECTED 1,
        ⟨403, .err "You have exceeded the reapply limit. Cannot submit application."⟩) ∧
    (saveDetails (exDB .REJECTED 0) 1 exSaveBody).2 =
      ⟨200, .saved "Application details updated successfully" 1⟩ ∧
    lookupReapply (saveDetails (exDB .REJECTED 0) 1 exSaveBody).1.students 1 =
      lookupReapply (exDB .REJECTED 0).students 1 + 1 := by
  have h1 := (claim_C4_rejected_reapply (exDB .REJECTED 1) 1 exSaveBody
    (exApp .REJECTED) { student_id := 1, reapply_count := 1 }
    (by decide) (by decide) (by decide) (by decide)).1 (by decide)
  have h2 := (claim_C4_rejected_reapply (exDB .REJECTED 0) 1 exSaveBody
    (exApp .REJECTED) { student_id := 1, reapply_count := 0 }
    (by decide) (by decide) (by decide) (by decide)).2 (by decide)
  exact ⟨h1, h2.1, h2.2.2.2.2.2.2⟩

/-! ### C7: re-saving details overwrites in place -/

/-- A `save_details` against an IN_PROGRESS application is the in-place
overwrite update returning 200. -/
theorem saveDetails_inprogress (db : DB) (sid : Nat) (b : SaveBody) (a : AppRow)
    (hv : validateSave b = none)
    (hone : db.apps.filter (fun r => r.student_id == sid) = [a])
    (hst : a.status = .IN_PROGRESS) :
    saveDetails db sid b =
      ({ db with apps := db.apps.map (fun r =>
          if r.application_id == a.application_id then overwriteApp b r else r) },
       ⟨200, .saved "Application details updated successfully" a.application_id⟩) := by
  have happ : appForStudent db sid = some a := by
    rw [appForStudent, hone]
    rfl
  have hblocked : blockedStatus a.status = false := by rw [hst]; decide
  have hrej : (a.status == Status.REJECTED) = false := by rw [hst]; decide
  simp [saveDetails, hv, happ, hblocked, hrej]

/-- After such a save, the student's single row is the overwritten one. -/
theorem saveDetails_inprogress_filter (db : DB) (sid : Nat) (b : SaveBody)
    (a : AppRow)
    (hv : validateSave b = none)
    (hone : db.apps.filter (fun r => r.student_id == sid) = [a])
    (hst : a.status = .IN_PROGRESS) :
    (saveDetails db sid b).1.apps.filter (fun r => r.student_id == sid) =
      [overwriteApp b a] := by
  rw [show (saveDetails db sid b).1.apps = db.apps.map (fun r =>
    if r.application_id == a.application_id then overwriteApp b r else r) from by
      rw [saveDetails_inprogress db sid b a hv hone hst]]
  rw [filter_map_comm _ _ (fun r => by
    by_cases hr : (r.application_id == a.application_id) = true <;>
      simp [hr, overwriteApp_student_id])]
  rw [hone]
  simp

/-- C7: two consecutive `save_details` calls with valid payloads against an
IN_PROGRESS application leave exactly one row for the student, its stored
fields are those of the second payload (overwrite in place, no duplicate
row), and the status is still IN_PROGRESS; both calls return 200. -/
theorem claim_C7_double_save_overwrites (db : DB) (sid : Nat) (b1 b2 : SaveBody)
    (a : AppRow)
    (hv1 : validateSave b1 = none) (hv2 : validateSave b2 = none)
    (hone : db.apps.filter (fun r => r.student_id == sid) = [a])
    (hst : a.status = .IN_PROGRESS) :
    (saveDetails db sid b1).2 =
      ⟨200, .saved "Application details updated successfully" a.application_id⟩ ∧
    (saveDetails (saveDetails db sid b1).1 sid b2).2 =
      ⟨200, .saved "Application details updated successfully" a.application_id⟩ ∧
    (saveDetails (saveDetails db sid b1).1 sid b2).1.apps.filter
      (fun r => r.student_id == sid) = [overwriteApp b2 a] ∧
    (overwriteApp b2 a).status = .IN_PROGRESS ∧
    (overwriteApp b2 a).blood_group = jsTrim b2.blood_group.asStr ∧
    (overwriteApp b2 a).address = jsTrim b2.address.asStr ∧
    (overwriteApp b2 a).department = jsTrim b2.department.asStr ∧
    (overwriteApp b2 a).year_of_study = b2.year_of_study.asInt ∧
    (overwriteApp b2 a).semester = b2.semester.asInt ∧
    (overwriteApp b2 a).college_id = b2.college_id.asInt ∧
    (overwriteApp b2 a).college_code = b2.college_code.asStr := by
  have h1 := saveDetails_inprogress db sid b1 a hv1 hone hst
  have hf1 := saveDetails_inprogress_filter db sid b1 a hv1 hone hst
  have hst1 : (overwriteApp b1 a).status = .IN_PROGRESS := hst
  have h2 := saveDetails_inprogress (saveDetails db sid b1).1 sid b2
    (overwriteApp b1 a) hv2 hf1 hst1
  have hf2 := saveDetails_inprogress_filter (saveDetails db sid b1).1 sid b2
    (overwriteApp b1 a) hv2 hf1 hst1
  have hcomp : overwriteApp b2 (overwriteApp b1 a) = overwriteApp b2 a := rfl
  refine ⟨by rw [h1], by rw [h2]; rfl, by rw [hf2, hcomp], hst, rfl, rfl, rfl,
    rfl, rfl, rfl, rfl⟩

/-- Witness for C7 with two concrete differing payloads. -/
theorem claim_C7_double_save_overwrites_witness :
    (saveDetails (saveDetails (exDB .IN_PROGRESS 0) 1 exSaveBody).1 1
      exSaveBody2).1.apps.filter (fun r => r.student_id == 1) =
      [overwriteApp exSaveBody2 (exApp .IN_PROGRESS)] ∧
    (overwriteApp exSaveBody2 (exApp .IN_PROGRESS)).status = .IN_PROGRESS ∧
    (overwriteApp exSaveBody2 (exApp .IN_PROGRESS)).department =
      jsTrim exSaveBody2.department.asStr := by
  have h := claim_C7_double_save_overwrites (exDB .IN_PROGRESS 0) 1 exSaveBody
    exSaveBody2 (exApp .IN_PROGRESS) (by decide) (by decide) (by decide) (by decide)
  exact ⟨h.2.2.1, h.2.2.2.1, h.2.2.2.2.2.2.1⟩
